import Mathlib

/-!
Verification of the isochrone-map server and overlap engine.

This file shallowly embeds the core of the repository:
the polygon synthesizer and response builder `generateMockIsochrones`
(`server/routes/isochrones.ts`), the in-memory cache (`getCacheKey`,
`getFromCache`, `setCache`, `CACHE_TTL`), the POST route handlers, and the
client-side pairwise-intersection pass (`useIntersections` in the map hook).

Modelling conventions:
* JavaScript numbers (IEEE doubles) are modelled as exact rationals `ℚ`;
  every double is a rational, and the claims under verification concern the
  arithmetic structure of the computations, not rounding.
* The external math library (`Math.cos`, `Math.sin`, `Math.PI`) is a
  parameter `MathExt`: the code calls these as black boxes.
* `Math.random()` is modelled as a stream `rand : ℕ → ℚ` of draws, consumed
  one per ring vertex in generation order; its published contract
  (each draw lies in `[0, 1)`) appears as a hypothesis where needed.
* `Date.now()` is modelled as an explicit `now : ℤ` argument (epoch ms).
* The mutable module-level `cache` Map is modelled as a value of type
  `Cache` threaded in and out of each handler call.
-/

/-- External math library surface used by the generator: `Math.PI`,
`Math.cos`, `Math.sin` operating on doubles (modelled as `ℚ`). -/
structure MathExt where
  pi : ℚ
  cos : ℚ → ℚ
  sin : ℚ → ℚ

/-- A GeoJSON position `[lon, lat]`. -/
abbrev Coord : Type := ℚ × ℚ

/-- Number of distinct ring vertices: `const numPoints = 12`. -/
def numPoints : ℕ := 12

/-- Radius noise amplitude: `const noiseScale = 0.15`. -/
def noiseScale : ℚ := 15 / 100

/-- Noise for one vertex from one `Math.random()` draw `r`:
`(Math.random() - 0.5) * 2 * noiseScale`. -/
def mkNoise (r : ℚ) : ℚ := (r - 1 / 2) * 2 * noiseScale

/-- Open-ring vertex list built for one `(location, rangeValue)` pair inside
`generateMockIsochrones` (the `points` array before the closing push):
12 vertices at equally spaced angles with noisy radius.  `rand i` is the
`Math.random()` draw made at loop iteration `i`. -/
def ringPoints (M : MathExt) (rand : ℕ → ℚ) (location : Coord)
    (rangeValue : ℚ) : List Coord :=
  let radiusDegrees : ℚ := rangeValue / 1000 / 50
  (List.range numPoints).map (fun (i : ℕ) =>
    let angle : ℚ := ((i : ℚ) / (numPoints : ℚ)) * M.pi * 2
    let noise : ℚ := mkNoise (rand i)
    let noisyRadius : ℚ := radiusDegrees * (1 + noise)
    (location.1 + noisyRadius * M.cos angle / M.cos (location.2 * M.pi / 180),
     location.2 + noisyRadius * M.sin angle))

/-- The closed ring: the vertex list followed by `points.push(points[0])`. -/
def mkRing (M : MathExt) (rand : ℕ → ℚ) (location : Coord) (rangeValue : ℚ) :
    List Coord :=
  ringPoints M rand location rangeValue ++
    [(ringPoints M rand location rangeValue).headI]

/-- Polygon geometry of a feature: `{ type: "Polygon", coordinates }`
(the constant `type` tag is omitted; `coordinates` is a list of rings). -/
structure Geometry where
  coordinates : List (List Coord)
deriving DecidableEq

/-- Feature properties `{ group_index, value, center }`. -/
structure FeatureProps where
  group_index : ℕ
  value : ℚ
  center : Coord
deriving DecidableEq

/-- A GeoJSON feature (constant `type: "Feature"` tag omitted). -/
structure Feature where
  geometry : Geometry
  properties : FeatureProps
deriving DecidableEq

/-- Static engine descriptor embedded in every response. -/
structure EngineInfo where
  version : String
  build_date : String
  graph_date : String
  osm_date : String
deriving DecidableEq

/-- Echo of the query inside response metadata. -/
structure QueryMeta where
  id : Option String
  locations : List Coord
  range : List ℚ
  transport : Option String
deriving DecidableEq

/-- Response metadata. -/
structure Metadata where
  id : Option String
  attribution : String
  service : String
  timestamp : ℤ
  query : QueryMeta
  engine : EngineInfo
deriving DecidableEq

/-- The isochrones response (constant `type: "FeatureCollection"` omitted). -/
structure IsochronesResponse where
  bbox : List ℚ
  features : List Feature
  metadata : Metadata
deriving DecidableEq

/-- One feature pushed for a `(location, rangeValue)` pair at location index
`locIndex`. -/
def mkFeature (M : MathExt) (rand : ℕ → ℚ) (locIndex : ℕ) (location : Coord)
    (rangeValue : ℚ) : Feature :=
  { geometry := { coordinates := [mkRing M rand location rangeValue] },
    properties :=
      { group_index := locIndex, value := rangeValue, center := location } }

/-- The response builder `generateMockIsochrones(locations, range, id,
transport)`.  The nested `locations.forEach((location, locIndex)) /
range.forEach((rangeValue))` loops are rendered as `enum.bind`/`enum.map` in
the same order; the feature generated for location index `li` and range index
`ri` consumes the 12 `Math.random()` draws numbered
`numPoints * (li * range.length + ri) + 0 … + 11`, matching sequential
consumption.  `now` is the `Date.now()` value taken for `metadata.timestamp`. -/
def generateMockIsochrones (M : MathExt) (rand : ℕ → ℚ) (now : ℤ)
    (locations : List Coord) (range : List ℚ) (id : Option String)
    (transport : Option String) : IsochronesResponse :=
  let features : List Feature := locations.enum.flatMap (fun li =>
    range.enum.map (fun ri =>
      mkFeature M (fun t => rand (numPoints * (li.1 * range.length + ri.1) + t))
        li.1 li.2 ri.2))
  { bbox := [-180, -90, 180, 90],
    features := features,
    metadata :=
      { id := id,
        attribution := "openrouteservice.org | OpenStreetMap contributors",
        service := "isochrones",
        timestamp := now,
        query :=
          { id := id, locations := locations, range := range,
            transport := transport },
        engine :=
          { version := "9.5.0",
            build_date := "2025-10-31T12:33:09Z",
            graph_date := "2025-12-28T11:13:32Z",
            osm_date := "2025-12-22T00:59:58Z" } } }

lemma ringPoints_length (M : MathExt) (rand : ℕ → ℚ) (location : Coord)
    (rangeValue : ℚ) :
    (ringPoints M rand location rangeValue).length = numPoints := by
  simp [ringPoints]

/-- C2: every ring produced by the polygon synthesizer has exactly 13
coordinates (12 generated vertices plus the repeated closing vertex), and its
first coordinate equals its last coordinate exactly. -/
theorem mkRing_closed_thirteen (M : MathExt) (rand : ℕ → ℚ) (location : Coord)
    (rangeValue : ℚ) :
    (mkRing M rand location rangeValue).length = 13 ∧
    (mkRing M rand location rangeValue).head? =
      (mkRing M rand location rangeValue).getLast? := by
  have hlen := ringPoints_length M rand location rangeValue
  have hne : ringPoints M rand location rangeValue ≠ [] := by
    intro h
    rw [h] at hlen
    simp [numPoints] at hlen
  constructor
  · simp [mkRing, hlen, numPoints]
  · rw [mkRing, List.getLast?_concat]
    cases h : ringPoints M rand location rangeValue with
    | nil => exact absurd h hne
    | cons a l => simp [List.headI]

/-- Default feature used with `List.getD` when indexing feature lists. -/
def defaultFeature : Feature :=
  { geometry := { coordinates := [] },
    properties := { group_index := 0, value := 0, center := (0, 0) } }

/-- Fixed zero interpretation of the external math library, used to
instantiate theorems at concrete inputs. -/
def mathZero : MathExt := { pi := 0, cos := fun _ => 0, sin := fun _ => 0 }

/-- Fixed zero randomness stream, used to instantiate theorems at concrete
inputs. -/
def randZero : ℕ → ℚ := fun _ => 0

lemma flatMap_enumFrom_length {α β : Type} (F : ℕ → α → List β) (m : ℕ)
    (hm : ∀ i a, (F i a).length = m) (k : ℕ) (l : List α) :
    ((List.enumFrom k l).flatMap (fun p => F p.1 p.2)).length = l.length * m := by
  induction l generalizing k with
  | nil => simp
  | cons a l ih =>
    simp only [List.enumFrom_cons, List.flatMap_cons, List.length_append,
      List.length_cons, hm, ih (k + 1)]
    ring

lemma flatMap_enumFrom_getD {α β : Type} (F : ℕ → α → List β) (m : ℕ)
    (hm : ∀ i a, (F i a).length = m) (d : β) (da : α) (k li ri : ℕ)
    (l : List α) (hli : li < l.length) (hri : ri < m) :
    ((List.enumFrom k l).flatMap (fun p => F p.1 p.2)).getD (li * m + ri) d =
      (F (k + li) (l.getD li da)).getD ri d := by
  induction l generalizing k li with
  | nil => simp at hli
  | cons a l ih =>
    simp only [List.enumFrom_cons, List.flatMap_cons]
    cases li with
    | zero =>
      rw [Nat.zero_mul, Nat.zero_add,
        List.getD_append _ _ _ _ (by rw [hm]; exact hri)]
      simp
    | succ li =>
      have hidx : (li + 1) * m + ri = m + (li * m + ri) := by ring
      rw [hidx, ← hm k a,
        List.getD_append_right _ _ _ _ (Nat.le_add_right _ _),
        Nat.add_sub_cancel_left, hm k a,
        ih (k + 1) li (by simpa using Nat.lt_of_succ_lt_succ hli)]
      have : k + 1 + li = k + (li + 1) := by ring
      simp [this]

lemma map_enum_getD {α β : Type} (g : ℕ × α → β) (l : List α) (ri : ℕ)
    (d : β) (da : α) (h : ri < l.length) :
    (l.enum.map g).getD ri d = g (ri, l.getD ri da) := by
  have h1 : ri < (l.enum.map g).length := by simpa using h
  rw [List.getD_eq_getElem _ _ h1, List.getElem_map, List.getElem_enum,
    List.getD_eq_getElem _ _ h]

/-- C1: `generateMockIsochrones` returns exactly
`locations.length * range.length` features, in location-major, range-minor
order: the feature at position `li * range.length + ri` carries
`properties.group_index = li` (the index of its location) and
`properties.value = range[ri]`. -/
theorem generateMockIsochrones_features (M : MathExt) (rand : ℕ → ℚ) (now : ℤ)
    (locations : List Coord) (range : List ℚ) (id : Option String)
    (transport : Option String) (li ri : ℕ) (hli : li < locations.length)
    (hri : ri < range.length) :
    (generateMockIsochrones M rand now locations range id
        transport).features.length = locations.length * range.length ∧
    ((generateMockIsochrones M rand now locations range id
        transport).features.getD (li * range.length + ri)
        defaultFeature).properties.group_index = li ∧
    ((generateMockIsochrones M rand now locations range id
        transport).features.getD (li * range.length + ri)
        defaultFeature).properties.value = range.getD ri 0 := by
  have hflen : ∀ (i : ℕ) (a : Coord),
      (range.enum.map (fun ri =>
        mkFeature M
          (fun t => rand (numPoints * (i * range.length + ri.1) + t))
          i a ri.2)).length = range.length := by
    intro i a
    simp
  refine ⟨?_, ?_, ?_⟩
  · unfold generateMockIsochrones
    exact flatMap_enumFrom_length _ range.length hflen 0 locations
  · unfold generateMockIsochrones
    rw [show locations.enum = List.enumFrom 0 locations from rfl,
      flatMap_enumFrom_getD _ range.length hflen defaultFeature (0, 0) 0 li ri
        locations hli hri,
      map_enum_getD _ range ri defaultFeature 0 hri]
    simp [mkFeature]
  · unfold generateMockIsochrones
    rw [show locations.enum = List.enumFrom 0 locations from rfl,
      flatMap_enumFrom_getD _ range.length hflen defaultFeature (0, 0) 0 li ri
        locations hli hri,
      map_enum_getD _ range ri defaultFeature 0 hri]
    simp [mkFeature]

/-- Instantiation of `generateMockIsochrones_features` at a concrete request
with two locations and two range values, at location index 1, range index 1. -/
theorem generateMockIsochrones_features_witness :
    (generateMockIsochrones mathZero randZero 0 [(0, 0), (1, 1)] [300, 500]
        none (some "driving-car")).features.length = 2 * 2 ∧
    ((generateMockIsochrones mathZero randZero 0 [(0, 0), (1, 1)] [300, 500]
        none (some "driving-car")).features.getD (1 * 2 + 1)
        defaultFeature).properties.group_index = 1 ∧
    ((generateMockIsochrones mathZero randZero 0 [(0, 0), (1, 1)] [300, 500]
        none (some "driving-car")).features.getD (1 * 2 + 1)
        defaultFeature).properties.value = [(300 : ℚ), 500].getD 1 0 := by
  have h := generateMockIsochrones_features mathZero randZero 0
    [(0, 0), (1, 1)] [300, 500] none (some "driving-car") 1 1
    (by decide) (by decide)
  simpa using h

/-- Transcription of the spec sentence for one synthesized vertex: vertex `i`
lies at equally spaced angle `i / 12 * 2π` around the center, at radius
`radiusDegrees * (1 + noise)` with `radiusDegrees = rangeMeters / 1000 / 50`,
the longitude offset additionally scaled by `1 / cos(latitude in radians)` and
the latitude offset unscaled. -/
def vertexSpecFormula (M : MathExt) (noise : ℚ) (center : Coord)
    (rangeMeters : ℚ) (i : ℕ) : Coord :=
  let radiusDegrees : ℚ := rangeMeters / 1000 / 50
  let angle : ℚ := (i : ℚ) / 12 * (2 * M.pi)
  let radius : ℚ := radiusDegrees * (1 + noise)
  (center.1 + radius * M.cos angle * (1 / M.cos (center.2 * M.pi / 180)),
   center.2 + radius * M.sin angle)

/-- Fixed one-half randomness stream, used to instantiate theorems at concrete
inputs. -/
def randHalf : ℕ → ℚ := fun _ => 1 / 2

/-- C7: each of the 12 generated vertices of a synthesized ring equals the
spec formula: angle `i / 12 * 2π`, radius `(rangeMeters / 1000 / 50) * (1 +
noise)` with the longitude offset scaled by `1 / cos(latitude in radians)`,
where the noise of the vertex is computed from its own `Math.random()` draw and —
given the `Math.random` contract `0 ≤ rand i < 1` — lies in
`[-0.15, +0.15]`. -/
theorem mkRing_vertex_formula (M : MathExt) (rand : ℕ → ℚ) (location : Coord)
    (rangeValue : ℚ) (i : ℕ) (hi : i < numPoints) (h0 : 0 ≤ rand i)
    (h1 : rand i < 1) :
    (mkRing M rand location rangeValue).getD i (0, 0) =
      vertexSpecFormula M (mkNoise (rand i)) location rangeValue i ∧
    -(15 / 100 : ℚ) ≤ mkNoise (rand i) ∧ mkNoise (rand i) ≤ 15 / 100 := by
  refine ⟨?_, ?_, ?_⟩
  · have hlt : i < (ringPoints M rand location rangeValue).length := by
      rw [ringPoints_length]; exact hi
    rw [mkRing, List.getD_append _ _ _ _ hlt,
      List.getD_eq_getElem _ _ hlt]
    unfold ringPoints
    rw [List.getElem_map, List.getElem_range]
    have hangle : ((i : ℚ) / (numPoints : ℚ)) * M.pi * 2 =
        (i : ℚ) / 12 * (2 * M.pi) := by
      simp only [numPoints, Nat.cast_ofNat]
      ring
    simp only [vertexSpecFormula, hangle]
    refine Prod.ext ?_ ?_
    · simp only
      rw [div_eq_mul_one_div]
    · simp only
  · unfold mkNoise noiseScale
    linarith
  · unfold mkNoise noiseScale
    linarith

/-- Instantiation of `mkRing_vertex_formula` at vertex 3 of a concrete ring. -/
theorem mkRing_vertex_formula_witness :
    (mkRing mathZero randHalf (0, 0) 500).getD 3 (0, 0) =
      vertexSpecFormula mathZero (mkNoise (randHalf 3)) (0, 0) 500 3 ∧
    -(15 / 100 : ℚ) ≤ mkNoise (randHalf 3) ∧ mkNoise (randHalf 3) ≤ 15 / 100 :=
  mkRing_vertex_formula mathZero randHalf (0, 0) 500 3 (by decide)
    (by norm_num [randHalf]) (by norm_num [randHalf])

/-- Polygon coordinates as they reach `turf.polygon`: a list of rings. -/
abbrev PolyCoords : Type := List (List Coord)

/-- Inner `j` loop of the `combine` callback in `useIntersections`: for each
later query result, if its data (first-feature coordinates) is present,
compute the pairwise intersection with `pI` and keep the non-null results. -/
def innerIntersections (intersect : PolyCoords → PolyCoords → Option PolyCoords) (pI : PolyCoords)
    (rest : List (Option PolyCoords)) : List PolyCoords :=
  rest.filterMap (fun dJ => dJ.bind (fun pJ => intersect pI pJ))

/-- Model of the pairwise double loop in the `combine` callback of
`useIntersections`: results whose data (or first-feature coordinates) is
missing are skipped by `continue`; for every index pair `i < j` with both
present, `turf.intersect` is called and its result pushed when non-null.
`turf.intersect` is an external library function, passed in as `intersect`
(returning `none` where the library returns `null`). -/
def useIntersectionsCombine (intersect : PolyCoords → PolyCoords → Option PolyCoords) :
    List (Option PolyCoords) → List PolyCoords
  | [] => []
  | none :: rest => useIntersectionsCombine intersect rest
  | some pI :: rest =>
      innerIntersections intersect pI rest ++
        useIntersectionsCombine intersect rest

/-- All unordered pairs of list elements, each index pair `i < j` exactly
once, in the loop order of `useIntersections`. -/
def allPairs {α : Type} : List α → List (α × α)
  | [] => []
  | x :: rest => rest.map (fun y => (x, y)) ++ allPairs rest

lemma allPairs_length {α : Type} (l : List α) :
    (allPairs l).length = Nat.choose l.length 2 := by
  induction l with
  | nil => rfl
  | cons x rest ih =>
    simp only [allPairs, List.length_append, List.length_map, ih,
      List.length_cons]
    rw [Nat.choose_succ_succ, Nat.choose_one_right]

lemma useIntersectionsCombine_map_some (intersect : PolyCoords → PolyCoords → Option PolyCoords)
    (polys : List PolyCoords) :
    useIntersectionsCombine intersect (polys.map some) =
      (allPairs polys).filterMap (fun pq => intersect pq.1 pq.2) := by
  induction polys with
  | nil => rfl
  | cons p rest ih =>
    simp only [List.map_cons, useIntersectionsCombine, allPairs,
      List.filterMap_append, ih, innerIntersections, List.filterMap_map]
    congr 1

/-- C3: the overlap pass over `N` single-ring polygons (all query results
settled) equals one `intersect` call per unordered index pair `i < j`, keeping
the non-null results; hence it produces at most `C(N, 2)` intersection
results, a result is present for a pair only if the two polygons geometrically
overlap (given that the external `turf.intersect` returns a result only for
overlapping inputs), and pairwise-disjoint polygons produce zero results. -/
theorem useIntersections_pairwise (intersect : PolyCoords → PolyCoords → Option PolyCoords)
    (overlaps : PolyCoords → PolyCoords → Prop) (polys : List PolyCoords)
    (hsound : ∀ p q r, intersect p q = some r → overlaps p q) :
    useIntersectionsCombine intersect (polys.map some) =
      (allPairs polys).filterMap (fun pq => intersect pq.1 pq.2) ∧
    (useIntersectionsCombine intersect (polys.map some)).length ≤
      Nat.choose polys.length 2 ∧
    ((∀ pq ∈ allPairs polys, ¬ overlaps pq.1 pq.2) →
      useIntersectionsCombine intersect (polys.map some) = []) := by
  refine ⟨useIntersectionsCombine_map_some intersect polys, ?_, ?_⟩
  · rw [useIntersectionsCombine_map_some, ← allPairs_length]
    exact List.length_filterMap_le _ _
  · intro hdisj
    rw [useIntersectionsCombine_map_some, List.filterMap_eq_nil_iff]
    intro pq hpq
    cases hr : intersect pq.1 pq.2 with
    | none => rfl
    | some r => exact absurd (hsound pq.1 pq.2 r hr) (hdisj pq hpq)

/-- A concrete single-ring polygon (the unit square). -/
def sqA : PolyCoords := [[(0, 0), (1, 0), (1, 1), (0, 1), (0, 0)]]

/-- A concrete single-ring polygon disjoint from `sqA`. -/
def sqB : PolyCoords := [[(5, 5), (6, 5), (6, 6), (5, 6), (5, 5)]]

/-- Instantiation of `useIntersections_pairwise` for two disjoint polygons
under an `intersect` function that never reports an overlap. -/
theorem useIntersections_pairwise_witness :
    useIntersectionsCombine (fun _ _ => none) ([sqA, sqB].map some) =
      (allPairs [sqA, sqB]).filterMap
        (fun pq => (fun (_ _ : PolyCoords) => none) pq.1 pq.2) ∧
    (useIntersectionsCombine (fun _ _ => none) ([sqA, sqB].map some)).length ≤
      Nat.choose ([sqA, sqB] : List PolyCoords).length 2 ∧
    ((∀ pq ∈ allPairs [sqA, sqB], ¬ (fun (_ _ : PolyCoords) => False) pq.1 pq.2) →
      useIntersectionsCombine (fun _ _ => none) ([sqA, sqB].map some) = []) :=
  useIntersections_pairwise (fun _ _ => none) (fun _ _ => False) [sqA, sqB]
    (fun _ _ r h => by simp at h)

/-- Pairwise intersection agreeing with `turf.intersect` on identical
polygons: the intersection of a polygon with itself is the polygon. -/
def eqIntersect : PolyCoords → PolyCoords → Option PolyCoords :=
  fun p q => if p = q then some p else none

/-- C4 counterexample: with the fetch of the third marker still unsettled (its
result entry holds no data), the combine pass nevertheless emits the
intersection of the two already-resolved identical polygons, so intersection
output is produced against a partial subset of resolved markers. -/
theorem useIntersections_partial_output :
    (none ∈ [some sqA, some sqA, (none : Option PolyCoords)]) ∧
    useIntersectionsCombine eqIntersect [some sqA, some sqA, none] = [sqA] ∧
    useIntersectionsCombine eqIntersect [some sqA, some sqA, none] ≠ [] := by
  refine ⟨by simp, by decide, by decide⟩

/-- C4 amended: the overlap pass does not wait for all per-marker fetches to
settle; unsettled entries are skipped, and its output always equals the
overlap pass over the list of already-settled polygons, so intersections are
computed against the partial subset of resolved markers. -/
theorem useIntersections_settled_subset
    (intersect : PolyCoords → PolyCoords → Option PolyCoords) (results : List (Option PolyCoords)) :
    useIntersectionsCombine intersect results =
      useIntersectionsCombine intersect
        ((results.filterMap id).map some) := by
  induction results with
  | nil => rfl
  | cons d rest ih =>
    cases d with
    | none =>
      simpa only [useIntersectionsCombine, List.filterMap_cons_none] using ih
    | some p =>
      simp only [useIntersectionsCombine, List.filterMap_cons_some,
        List.map_cons, ih]
      congr 1
      simp only [innerIntersections, List.filterMap_map]
      rw [List.filterMap_filterMap]
      rfl

/-- A parsed request body: `{ locations, range, id? }`. -/
structure RequestBody where
  locations : List Coord
  range : List ℚ
  id : Option String
deriving DecidableEq

/-- The zod `IsochronesRequestSchema` on a type-correct body:
`locations` nonempty, `range` nonempty with every element positive
(`z.number().positive()`); `id` is optional and unchecked. -/
def validRequest (req : RequestBody) : Bool :=
  !req.locations.isEmpty && !req.range.isEmpty &&
    req.range.all (fun r => decide (0 < r))

/-- The cache key.  The source derives the string
`transport + ":" + JSON.stringify(locations) + ":" + JSON.stringify(range)`,
an injective encoding of exactly this triple; it is modelled as the triple. -/
structure CacheKey where
  transport : String
  locations : List Coord
  range : List ℚ
deriving DecidableEq

/-- Key derivation `getCacheKey(transport, locations, range)`. -/
def getCacheKey (transport : String) (locations : List Coord)
    (range : List ℚ) : CacheKey :=
  { transport := transport, locations := locations, range := range }

/-- A stored cache entry `{ data, timestamp }`. -/
structure CacheEntry where
  data : IsochronesResponse
  timestamp : ℤ
deriving DecidableEq

/-- The module-level `Map` cache, as a function state. -/
abbrev Cache : Type := CacheKey → Option CacheEntry

/-- Entry time-to-live: `60 * 60 * 1000` ms (1 hour). -/
def CACHE_TTL : ℤ := 60 * 60 * 1000

/-- Effect of `cache.delete(key)`. -/
def cacheDelete (cache : Cache) (key : CacheKey) : Cache :=
  fun k => if k = key then none else cache k

/-- The lookup `getFromCache(key)`: return the stored data when an entry
exists and `Date.now() - cached.timestamp < CACHE_TTL`; otherwise
`cache.delete(key)` and return null. -/
def getFromCache (cache : Cache) (now : ℤ) (key : CacheKey) :
    Option IsochronesResponse × Cache :=
  match cache key with
  | some cached =>
      if now - cached.timestamp < CACHE_TTL then (some cached.data, cache)
      else (none, cacheDelete cache key)
  | none => (none, cacheDelete cache key)

/-- The insertion `setCache(key, data)` stamping the entry with `Date.now()`. -/
def setCache (cache : Cache) (now : ℤ) (key : CacheKey)
    (data : IsochronesResponse) : Cache :=
  fun k => if k = key then some { data := data, timestamp := now } else cache k

/-- An HTTP response as observed by the client: status, headers set by the
handler, and the isochrones payload when there is one. -/
structure HttpResponse where
  status : ℕ
  headers : List (String × String)
  body : Option IsochronesResponse
deriving DecidableEq

/-- One POST handler of `isochronesRoute` (the three per-transport handlers
are textually identical up to the transport string).  Validation failure
(`zValidator`) rejects with a client error before the handler body runs; on a
cache hit the cached payload is returned as-is (note: no `Cache-Control`
header is set on this path); on a miss the response is generated, cached, and
returned with `Cache-Control: public, max-age=3600`. -/
def isochronesRoute (M : MathExt) (rand : ℕ → ℚ) (now : ℤ)
    (transport : String) (req : RequestBody) (cache : Cache) :
    HttpResponse × Cache :=
  if validRequest req then
    match getFromCache cache now (getCacheKey transport req.locations
        req.range) with
    | (some cached, cache2) =>
        ({ status := 200, headers := [], body := some cached }, cache2)
    | (none, cache2) =>
        let result := generateMockIsochrones M rand now req.locations
          req.range req.id (some transport)
        ({ status := 200,
           headers := [("Cache-Control", "public, max-age=3600")],
           body := some result },
         setCache cache2 now (getCacheKey transport req.locations req.range)
           result)
  else
    ({ status := 400, headers := [], body := none }, cache)

lemma getFromCache_fresh (cache : Cache) (now : ℤ) (key : CacheKey)
    (e : CacheEntry) (h : cache key = some e)
    (hfresh : now - e.timestamp < CACHE_TTL) :
    getFromCache cache now key = (some e.data, cache) := by
  unfold getFromCache
  rw [h]
  simp [hfresh]

lemma getFromCache_stale (cache : Cache) (now : ℤ) (key : CacheKey)
    (e : CacheEntry) (h : cache key = some e)
    (hexp : ¬ now - e.timestamp < CACHE_TTL) :
    getFromCache cache now key = (none, cacheDelete cache key) := by
  unfold getFromCache
  rw [h]
  simp [hexp]

lemma setCache_self (cache : Cache) (now : ℤ) (key : CacheKey)
    (data : IsochronesResponse) :
    setCache cache now key data key = some { data := data, timestamp := now } := by
  simp [setCache]

lemma isochronesRoute_miss (M : MathExt) (rand : ℕ → ℚ) (now : ℤ)
    (transport : String) (req : RequestBody) (cache : Cache)
    (hval : validRequest req = true)
    (hmiss : (getFromCache cache now
      (getCacheKey transport req.locations req.range)).1 = none) :
    isochronesRoute M rand now transport req cache =
      ({ status := 200,
         headers := [("Cache-Control", "public, max-age=3600")],
         body := some (generateMockIsochrones M rand now req.locations
           req.range req.id (some transport)) },
       setCache (getFromCache cache now
           (getCacheKey transport req.locations req.range)).2 now
         (getCacheKey transport req.locations req.range)
         (generateMockIsochrones M rand now req.locations req.range req.id
           (some transport))) := by
  have h2 : getFromCache cache now
      (getCacheKey transport req.locations req.range) =
      (none, (getFromCache cache now
        (getCacheKey transport req.locations req.range)).2) := by
    rw [← hmiss]
  unfold isochronesRoute
  rw [hval, h2]
  rfl

lemma isochronesRoute_hit (M : MathExt) (rand : ℕ → ℚ) (now : ℤ)
    (transport : String) (req : RequestBody) (cache : Cache)
    (d : IsochronesResponse) (hval : validRequest req = true)
    (hhit : (getFromCache cache now
      (getCacheKey transport req.locations req.range)).1 = some d) :
    isochronesRoute M rand now transport req cache =
      ({ status := 200, headers := [], body := some d },
       (getFromCache cache now
         (getCacheKey transport req.locations req.range)).2) := by
  have h2 : getFromCache cache now
      (getCacheKey transport req.locations req.range) =
      (some d, (getFromCache cache now
        (getCacheKey transport req.locations req.range)).2) := by
    rw [← hhit]
  unfold isochronesRoute
  rw [hval, h2]
  rfl

lemma validRequest_same_fields (req1 req2 : RequestBody)
    (hloc : req2.locations = req1.locations) (hrng : req2.range = req1.range)
    (hval : validRequest req1 = true) : validRequest req2 = true := by
  unfold validRequest at *
  rw [hloc, hrng]
  exact hval

lemma isochronesRoute_miss_then_hit (M : MathExt) (rand : ℕ → ℚ) (t1 t2 : ℤ)
    (transport : String) (req1 req2 : RequestBody) (cache0 : Cache)
    (hval1 : validRequest req1 = true)
    (hloc : req2.locations = req1.locations) (hrng : req2.range = req1.range)
    (hmiss : (getFromCache cache0 t1
      (getCacheKey transport req1.locations req1.range)).1 = none)
    (httl : t2 - t1 < CACHE_TTL) :
    (isochronesRoute M rand t1 transport req1 cache0).1 =
      { status := 200,
        headers := [("Cache-Control", "public, max-age=3600")],
        body := some (generateMockIsochrones M rand t1 req1.locations
          req1.range req1.id (some transport)) } ∧
    (isochronesRoute M rand t2 transport req2
        (isochronesRoute M rand t1 transport req1 cache0).2).1 =
      { status := 200, headers := [],
        body := some (generateMockIsochrones M rand t1 req1.locations
          req1.range req1.id (some transport)) } ∧
    (isochronesRoute M rand t2 transport req2
        (isochronesRoute M rand t1 transport req1 cache0).2).2 =
      (isochronesRoute M rand t1 transport req1 cache0).2 := by
  have hval2 : validRequest req2 = true :=
    validRequest_same_fields req1 req2 hloc hrng hval1
  have hkey2 : getCacheKey transport req2.locations req2.range =
      getCacheKey transport req1.locations req1.range := by
    rw [hloc, hrng]
  have hfirst := isochronesRoute_miss M rand t1 transport req1 cache0
    hval1 hmiss
  have hc1 : (isochronesRoute M rand t1 transport req1 cache0).2
      (getCacheKey transport req1.locations req1.range) =
      some { data := generateMockIsochrones M rand t1 req1.locations
               req1.range req1.id (some transport),
             timestamp := t1 } := by
    rw [hfirst]
    exact setCache_self _ _ _ _
  have hlook := getFromCache_fresh
    (isochronesRoute M rand t1 transport req1 cache0).2 t2
    (getCacheKey transport req1.locations req1.range) _ hc1 httl
  have hsecond := isochronesRoute_hit M rand t2 transport req2
    (isochronesRoute M rand t1 transport req1 cache0).2
    (generateMockIsochrones M rand t1 req1.locations req1.range req1.id
      (some transport)) hval2 (by rw [hkey2, hlook])
  refine ⟨by rw [hfirst], ?_, ?_⟩
  · rw [hsecond]
  · rw [hsecond, hkey2, hlook]

/-- C5: when a request populates the cache at time `t1` (a miss) and an
identical `(transport, locations, range)` request arrives at `t2` with
`t2 - t1 < CACHE_TTL`, the second call returns the cached response unchanged —
the same payload, including the original `metadata.timestamp = t1` — and does
not regenerate (the cache state is untouched by the second call). -/
theorem cache_hit_within_ttl (M : MathExt) (rand : ℕ → ℚ) (t1 t2 : ℤ)
    (transport : String) (req1 req2 : RequestBody) (cache0 : Cache)
    (hval1 : validRequest req1 = true)
    (hloc : req2.locations = req1.locations) (hrng : req2.range = req1.range)
    (hmiss : (getFromCache cache0 t1
      (getCacheKey transport req1.locations req1.range)).1 = none)
    (httl : t2 - t1 < CACHE_TTL) :
    (isochronesRoute M rand t2 transport req2
        (isochronesRoute M rand t1 transport req1 cache0).2).1.body =
      (isochronesRoute M rand t1 transport req1 cache0).1.body ∧
    (isochronesRoute M rand t2 transport req2
        (isochronesRoute M rand t1 transport req1 cache0).2).1.body =
      some (generateMockIsochrones M rand t1 req1.locations req1.range
        req1.id (some transport)) ∧
    (generateMockIsochrones M rand t1 req1.locations req1.range req1.id
      (some transport)).metadata.timestamp = t1 ∧
    (isochronesRoute M rand t2 transport req2
        (isochronesRoute M rand t1 transport req1 cache0).2).2 =
      (isochronesRoute M rand t1 transport req1 cache0).2 := by
  obtain ⟨h1, h2, h3⟩ := isochronesRoute_miss_then_hit M rand t1 t2 transport
    req1 req2 cache0 hval1 hloc hrng hmiss httl
  refine ⟨?_, ?_, rfl, h3⟩
  · rw [h1, h2]
  · rw [h2]

/-- The empty initial cache. -/
def emptyCache : Cache := fun _ => none

/-- A concrete request with one location, one range value and id `m1`. -/
def reqM1 : RequestBody :=
  { locations := [(-1 / 10, 103 / 2)], range := [500], id := some "m1" }

/-- Instantiation of `cache_hit_within_ttl`: a first call on the empty cache
at time 0 and an identical call at time 1000. -/
theorem cache_hit_within_ttl_witness :
    (isochronesRoute mathZero randZero 1000 "foot-walking" reqM1
        (isochronesRoute mathZero randZero 0 "foot-walking" reqM1
          emptyCache).2).1.body =
      (isochronesRoute mathZero randZero 0 "foot-walking" reqM1
        emptyCache).1.body ∧
    (isochronesRoute mathZero randZero 1000 "foot-walking" reqM1
        (isochronesRoute mathZero randZero 0 "foot-walking" reqM1
          emptyCache).2).1.body =
      some (generateMockIsochrones mathZero randZero 0 reqM1.locations
        reqM1.range reqM1.id (some "foot-walking")) ∧
    (generateMockIsochrones mathZero randZero 0 reqM1.locations reqM1.range
      reqM1.id (some "foot-walking")).metadata.timestamp = 0 ∧
    (isochronesRoute mathZero randZero 1000 "foot-walking" reqM1
        (isochronesRoute mathZero randZero 0 "foot-walking" reqM1
          emptyCache).2).2 =
      (isochronesRoute mathZero randZero 0 "foot-walking" reqM1
        emptyCache).2 :=
  cache_hit_within_ttl mathZero randZero 0 1000 "foot-walking" reqM1 reqM1
    emptyCache (by decide) rfl rfl (by simp [getFromCache, emptyCache])
    (by decide)

/-- C6: for a cache entry stored under `key`, a lookup at time `now` returns
absent exactly when `now - createdAt >= CACHE_TTL`; an entry found expired is
removed from storage at that lookup, leaving all other keys untouched (lazy
removal — nothing else in the code deletes entries); and a request for the
same key after expiry goes through fresh synthesis, producing a response
whose `metadata.timestamp` is the new `now`. -/
theorem getFromCache_expiry (cache : Cache) (now : ℤ) (key : CacheKey)
    (e : CacheEntry) (h : cache key = some e) :
    ((getFromCache cache now key).1 = none ↔
      CACHE_TTL ≤ now - e.timestamp) ∧
    (CACHE_TTL ≤ now - e.timestamp →
      (getFromCache cache now key).2 key = none ∧
      ∀ k, k ≠ key → (getFromCache cache now key).2 k = cache k) ∧
    (∀ (M : MathExt) (rand : ℕ → ℚ) (transport : String) (req : RequestBody),
      validRequest req = true →
      key = getCacheKey transport req.locations req.range →
      CACHE_TTL ≤ now - e.timestamp →
      (isochronesRoute M rand now transport req cache).1.body =
        some (generateMockIsochrones M rand now req.locations req.range
          req.id (some transport)) ∧
      (generateMockIsochrones M rand now req.locations req.range req.id
        (some transport)).metadata.timestamp = now) := by
  refine ⟨?_, ?_, ?_⟩
  · constructor
    · intro hnone
      by_contra hlt
      rw [getFromCache_fresh cache now key e h (by linarith [lt_of_not_le hlt])]
        at hnone
      simp at hnone
    · intro hexp
      rw [getFromCache_stale cache now key e h (by linarith)]
  · intro hexp
    rw [getFromCache_stale cache now key e h (by linarith)]
    constructor
    · simp [cacheDelete]
    · intro k hk
      simp [cacheDelete, hk]
  · intro M rand transport req hval hkey hexp
    have hmiss : (getFromCache cache now
        (getCacheKey transport req.locations req.range)).1 = none := by
      rw [← hkey, getFromCache_stale cache now key e h (by linarith)]
    rw [isochronesRoute_miss M rand now transport req cache hval hmiss]
    exact ⟨rfl, rfl⟩

/-- A cache holding exactly one entry, stamped at time 0, under the key of
`reqM1` on `foot-walking`. -/
def cacheOne : Cache :=
  fun k =>
    if k = getCacheKey "foot-walking" reqM1.locations reqM1.range then
      some { data := generateMockIsochrones mathZero randZero 0
               reqM1.locations reqM1.range reqM1.id (some "foot-walking"),
             timestamp := 0 }
    else none

/-- Instantiation of `getFromCache_expiry` at the single-entry cache, looked
up exactly at the TTL boundary `now = CACHE_TTL`. -/
theorem getFromCache_expiry_witness :
    ((getFromCache cacheOne CACHE_TTL
        (getCacheKey "foot-walking" reqM1.locations reqM1.range)).1 = none ↔
      CACHE_TTL ≤ CACHE_TTL -
        ({ data := generateMockIsochrones mathZero randZero 0 reqM1.locations
             reqM1.range reqM1.id (some "foot-walking"),
           timestamp := 0 } : CacheEntry).timestamp) ∧
    (CACHE_TTL ≤ CACHE_TTL -
        ({ data := generateMockIsochrones mathZero randZero 0 reqM1.locations
             reqM1.range reqM1.id (some "foot-walking"),
           timestamp := 0 } : CacheEntry).timestamp →
      (getFromCache cacheOne CACHE_TTL
        (getCacheKey "foot-walking" reqM1.locations reqM1.range)).2
        (getCacheKey "foot-walking" reqM1.locations reqM1.range) = none ∧
      ∀ k, k ≠ getCacheKey "foot-walking" reqM1.locations reqM1.range →
        (getFromCache cacheOne CACHE_TTL
          (getCacheKey "foot-walking" reqM1.locations reqM1.range)).2 k =
          cacheOne k) ∧
    (∀ (M : MathExt) (rand : ℕ → ℚ) (transport : String) (req : RequestBody),
      validRequest req = true →
      getCacheKey "foot-walking" reqM1.locations reqM1.range =
        getCacheKey transport req.locations req.range →
      CACHE_TTL ≤ CACHE_TTL -
        ({ data := generateMockIsochrones mathZero randZero 0 reqM1.locations
             reqM1.range reqM1.id (some "foot-walking"),
           timestamp := 0 } : CacheEntry).timestamp →
      (isochronesRoute M rand CACHE_TTL transport req cacheOne).1.body =
        some (generateMockIsochrones M rand CACHE_TTL req.locations req.range
          req.id (some transport)) ∧
      (generateMockIsochrones M rand CACHE_TTL req.locations req.range req.id
        (some transport)).metadata.timestamp = CACHE_TTL) :=
  getFromCache_expiry cacheOne CACHE_TTL
    (getCacheKey "foot-walking" reqM1.locations reqM1.range) _
    (by simp [cacheOne])

/-- C8: a request with an empty locations list, an empty range list, or a
non-positive range value fails validation; the route rejects it with a
client-input error (status 400), no synthesis result is produced, and the
cache state is completely unchanged. -/
theorem invalid_request_rejected (M : MathExt) (rand : ℕ → ℚ) (now : ℤ)
    (transport : String) (req : RequestBody) (cache : Cache)
    (hbad : req.locations = [] ∨ req.range = [] ∨ ∃ r ∈ req.range, r ≤ 0) :
    validRequest req = false ∧
    (isochronesRoute M rand now transport req cache).1.status = 400 ∧
    (isochronesRoute M rand now transport req cache).1.body = none ∧
    (isochronesRoute M rand now transport req cache).2 = cache := by
  have hval : validRequest req = false := by
    cases hb : validRequest req with
    | false => rfl
    | true =>
      exfalso
      simp only [validRequest, Bool.and_eq_true, Bool.not_eq_true',
        List.isEmpty_eq_false, List.all_eq_true, decide_eq_true_eq] at hb
      obtain ⟨⟨hl, hr⟩, hall⟩ := hb
      rcases hbad with h | h | ⟨r, hmem, hle⟩
      · exact hl h
      · exact hr h
      · exact absurd (hall r hmem) (not_lt.mpr hle)
  refine ⟨hval, ?_, ?_, ?_⟩ <;>
    · unfold isochronesRoute
      rw [hval]
      rfl

/-- A concrete request whose range list contains a negative value. -/
def reqBad : RequestBody :=
  { locations := [(0, 0)], range := [-5], id := none }

/-- Instantiation of `invalid_request_rejected` at a request with range
`[-5]` on the single-entry cache. -/
theorem invalid_request_rejected_witness :
    validRequest reqBad = false ∧
    (isochronesRoute mathZero randZero 0 "driving-car" reqBad
      cacheOne).1.status = 400 ∧
    (isochronesRoute mathZero randZero 0 "driving-car" reqBad
      cacheOne).1.body = none ∧
    (isochronesRoute mathZero randZero 0 "driving-car" reqBad cacheOne).2 =
      cacheOne :=
  invalid_request_rejected mathZero randZero 0 "driving-car" reqBad cacheOne
    (Or.inr (Or.inr ⟨-5, by simp [reqBad], by norm_num⟩))

/-- C9 counterexample: a successful (200) response served from the cache
carries no `Cache-Control` header.  Concretely, a first call on the empty
cache populates it at time 0, and the identical call at time 1000 is served
from the cache with status 200 and an empty header list — the handler sets
`Cache-Control` only on the freshly-synthesized path and returns before
setting it on the hit path. -/
theorem cached_response_lacks_header :
    (isochronesRoute mathZero randZero 1000 "driving-car" reqM1
        (isochronesRoute mathZero randZero 0 "driving-car" reqM1
          emptyCache).2).1.status = 200 ∧
    (isochronesRoute mathZero randZero 1000 "driving-car" reqM1
        (isochronesRoute mathZero randZero 0 "driving-car" reqM1
          emptyCache).2).1.headers = [] ∧
    (isochronesRoute mathZero randZero 1000 "driving-car" reqM1
        (isochronesRoute mathZero randZero 0 "driving-car" reqM1
          emptyCache).2).1.body ≠ none := by
  obtain ⟨h1, h2, h3⟩ := isochronesRoute_miss_then_hit mathZero randZero 0
    1000 "driving-car" reqM1 reqM1 emptyCache (by decide) rfl rfl
    (by simp [getFromCache, emptyCache]) (by decide)
  rw [h2]
  exact ⟨rfl, rfl, by simp⟩

/-- C9 amended: only a freshly synthesized success response carries
`Cache-Control: public, max-age=3600`; a success response served from the
cache carries no headers set by the handler. -/
theorem success_header_only_on_miss (M : MathExt) (rand : ℕ → ℚ) (now : ℤ)
    (transport : String) (req : RequestBody) (cache : Cache)
    (hval : validRequest req = true) :
    ((getFromCache cache now
        (getCacheKey transport req.locations req.range)).1 = none →
      (isochronesRoute M rand now transport req cache).1.status = 200 ∧
      (isochronesRoute M rand now transport req cache).1.headers =
        [("Cache-Control", "public, max-age=3600")]) ∧
    (∀ d, (getFromCache cache now
        (getCacheKey transport req.locations req.range)).1 = some d →
      (isochronesRoute M rand now transport req cache).1.status = 200 ∧
      (isochronesRoute M rand now transport req cache).1.headers = []) := by
  constructor
  · intro hmiss
    rw [isochronesRoute_miss M rand now transport req cache hval hmiss]
    exact ⟨rfl, rfl⟩
  · intro d hhit
    rw [isochronesRoute_hit M rand now transport req cache d hval hhit]
    exact ⟨rfl, rfl⟩

/-- Instantiation of `success_header_only_on_miss` at a concrete request on
the empty cache (the miss branch applies, the hit branch is vacuous there). -/
theorem success_header_only_on_miss_witness :
    ((getFromCache emptyCache 0
        (getCacheKey "cycling-regular" reqM1.locations reqM1.range)).1 =
        none →
      (isochronesRoute mathZero randZero 0 "cycling-regular" reqM1
        emptyCache).1.status = 200 ∧
      (isochronesRoute mathZero randZero 0 "cycling-regular" reqM1
        emptyCache).1.headers =
        [("Cache-Control", "public, max-age=3600")]) ∧
    (∀ d, (getFromCache emptyCache 0
        (getCacheKey "cycling-regular" reqM1.locations reqM1.range)).1 =
        some d →
      (isochronesRoute mathZero randZero 0 "cycling-regular" reqM1
        emptyCache).1.status = 200 ∧
      (isochronesRoute mathZero randZero 0 "cycling-regular" reqM1
        emptyCache).1.headers = []) :=
  success_header_only_on_miss mathZero randZero 0 "cycling-regular" reqM1
    emptyCache (by decide)

/-- C10: the cache key is derived from `(transport, locations, range)` only
and omits `id`; consequently a second request with the same transport,
locations and range but any different (or missing) `id`, arriving within the
TTL of the entry the first request stored, is answered with the cached
response, whose `metadata.id` and `metadata.query.id` still echo the id of
the first request. -/
theorem cache_key_omits_id (M : MathExt) (rand : ℕ → ℚ) (t1 t2 : ℤ)
    (transport : String) (req1 req2 : RequestBody) (cache0 : Cache)
    (hval1 : validRequest req1 = true)
    (hloc : req2.locations = req1.locations) (hrng : req2.range = req1.range)
    (hmiss : (getFromCache cache0 t1
      (getCacheKey transport req1.locations req1.range)).1 = none)
    (httl : t2 - t1 < CACHE_TTL) :
    getCacheKey transport req2.locations req2.range =
      getCacheKey transport req1.locations req1.range ∧
    ∃ data, (isochronesRoute M rand t2 transport req2
        (isochronesRoute M rand t1 transport req1 cache0).2).1.body =
          some data ∧
      data.metadata.id = req1.id ∧ data.metadata.query.id = req1.id := by
  obtain ⟨h1, h2, h3⟩ := isochronesRoute_miss_then_hit M rand t1 t2 transport
    req1 req2 cache0 hval1 hloc hrng hmiss httl
  refine ⟨by rw [hloc, hrng], ?_⟩
  refine ⟨generateMockIsochrones M rand t1 req1.locations req1.range req1.id
    (some transport), ?_, rfl, rfl⟩
  rw [h2]

/-- A concrete request identical to `reqM1` except for a different id. -/
def reqM2 : RequestBody :=
  { locations := [(-1 / 10, 103 / 2)], range := [500], id := some "m2" }

/-- Instantiation of `cache_key_omits_id`: the first request carries id `m1`,
the second carries id `m2`, and the served response echoes `m1`. -/
theorem cache_key_omits_id_witness :
    getCacheKey "driving-car" reqM2.locations reqM2.range =
      getCacheKey "driving-car" reqM1.locations reqM1.range ∧
    ∃ data, (isochronesRoute mathZero randZero 1000 "driving-car" reqM2
        (isochronesRoute mathZero randZero 0 "driving-car" reqM1
          emptyCache).2).1.body = some data ∧
      data.metadata.id = reqM1.id ∧ data.metadata.query.id = reqM1.id :=
  cache_key_omits_id mathZero randZero 0 1000 "driving-car" reqM1 reqM2
    emptyCache (by decide) rfl rfl (by simp [getFromCache, emptyCache])
    (by decide)
